import Mathlib

/-!
Verification of the songs ingestion pipeline (`songs.py`).

The script scrapes a radio station's "last songs played" page, builds a
batch of play records, uploads it to a landing bucket, bridges the landing
objects into an external relation, full-refreshes a staging relation and
merges staging into a datamart with an anti-join on the composite key
`(Song, Artist, DatePlayed, TimePlayed)`.  This file gives a shallow
embedding of each function the claims touch and proves or refutes the
claimed properties.
-/

namespace Songs

/-- Module-level configuration constants of the script. -/
def FILE_BASE_NAME : String := "songlist"

/-- Error taxonomy used by the shallow embedding.  The script itself has no
exception classes; these names stand for the failure modes a run can hit
(a propagated network exception, misaligned scraped sequences, an
unparseable timestamp). -/
inductive PipelineError where
  | FetchError
  | ParseError
  | ValidationError
deriving DecidableEq, Repr

/-! ## DedupMerger: `load_data_to_datamart`

Staging and datamart rows carry the four columns of the composite key.
Relations are bags (lists) of rows, as in SQL.  The merge query is
`INSERT INTO DATAMART SELECT DISTINCT Song, Artist, DatePlayed, TimePlayed
FROM STAGING AS S WHERE NOT EXISTS (matching datamart row)`: the
`NOT EXISTS` subquery reads the datamart as it stood when the statement
started, so the inserted rows are the distinct staging rows that are
absent from the pre-insert datamart. -/

/-- One row of the staging or datamart relation: the composite natural key
`(Song, Artist, DatePlayed, TimePlayed)`. -/
structure SongRow where
  Song : String
  Artist : String
  DatePlayed : String
  TimePlayed : String
deriving DecidableEq, Repr

/-- `SELECT DISTINCT`: collapse duplicate rows of the operand (the result
set keeps one copy of each row; SQL fixes no order, this rendering keeps
the last copy). -/
def selectDistinct : List SongRow → List SongRow
  | [] => []
  | r :: rs => if r ∈ rs then selectDistinct rs else r :: selectDistinct rs

/-- The rows the merge statement inserts: distinct staging rows for which
no equal row exists in the (pre-insert) datamart. -/
def insertedRows (datamart staging : List SongRow) : List SongRow :=
  selectDistinct (staging.filter (fun r => decide (r ∉ datamart)))

/-- `load_data_to_datamart`: the datamart after the merge query ran, namely
its previous content plus the anti-joined distinct staging rows. -/
def load_data_to_datamart (datamart staging : List SongRow) : List SongRow :=
  datamart ++ insertedRows datamart staging

theorem mem_selectDistinct {t : SongRow} : ∀ {l : List SongRow},
    t ∈ selectDistinct l ↔ t ∈ l := by
  intro l
  induction l with
  | nil => simp [selectDistinct]
  | cons r rs ih =>
    by_cases hr : r ∈ rs
    · simp only [selectDistinct, if_pos hr, ih, List.mem_cons]
      constructor
      · exact Or.inr
      · rintro (rfl | h)
        · exact hr
        · exact h
    · simp [selectDistinct, if_neg hr, ih]

theorem nodup_selectDistinct : ∀ l : List SongRow, (selectDistinct l).Nodup := by
  intro l
  induction l with
  | nil => simp [selectDistinct]
  | cons r rs ih =>
    by_cases hr : r ∈ rs
    · simpa [selectDistinct, if_pos hr] using ih
    · simp only [selectDistinct, if_neg hr]
      exact List.Nodup.cons (fun hmem => hr (mem_selectDistinct.mp hmem)) ih

theorem count_selectDistinct (l : List SongRow) (t : SongRow) :
    (selectDistinct l).count t = if t ∈ l then 1 else 0 := by
  by_cases h : t ∈ l
  · rw [if_pos h]
    exact List.count_eq_one_of_mem (nodup_selectDistinct l) (mem_selectDistinct.mpr h)
  · rw [if_neg h]
    exact List.count_eq_zero.mpr (fun hmem => h (mem_selectDistinct.mp hmem))

theorem count_insertedRows (datamart staging : List SongRow) (t : SongRow) :
    (insertedRows datamart staging).count t =
      if t ∈ staging ∧ t ∉ datamart then 1 else 0 := by
  unfold insertedRows
  rw [count_selectDistinct]
  congr 1
  simp [List.mem_filter]

/-- C1: a staging tuple already present in the datamart leads to zero
inserted rows for that tuple, and a staging tuple absent from the datamart
leads to exactly one inserted row for that tuple. -/
theorem merge_insert_counts (datamart staging : List SongRow) (t : SongRow) :
    (t ∈ datamart → (insertedRows datamart staging).count t = 0) ∧
    (t ∈ staging → t ∉ datamart → (insertedRows datamart staging).count t = 1) := by
  constructor
  · intro hdm
    rw [count_insertedRows]
    exact if_neg (fun hc => hc.2 hdm)
  · intro hst hdm
    rw [count_insertedRows]
    exact if_pos ⟨hst, hdm⟩

/-- C1 witness: with the datamart already holding
(`SongX`, `ArtistX`, 2024-01-01, 00:00:00) and staging holding that tuple
plus a new one, re-merging inserts zero rows for the old tuple and exactly
one row for the new tuple. -/
theorem merge_insert_counts_witness :
    (insertedRows
        [⟨"SongX", "ArtistX", "2024-01-01", "00:00:00"⟩]
        [⟨"SongX", "ArtistX", "2024-01-01", "00:00:00"⟩,
         ⟨"SongY", "ArtistY", "2024-01-02", "01:00:00"⟩]).count
        ⟨"SongX", "ArtistX", "2024-01-01", "00:00:00"⟩ = 0 ∧
    (insertedRows
        [⟨"SongX", "ArtistX", "2024-01-01", "00:00:00"⟩]
        [⟨"SongX", "ArtistX", "2024-01-01", "00:00:00"⟩,
         ⟨"SongY", "ArtistY", "2024-01-02", "01:00:00"⟩]).count
        ⟨"SongY", "ArtistY", "2024-01-02", "01:00:00"⟩ = 1 :=
  ⟨(merge_insert_counts _ _ _).1 (by decide),
   (merge_insert_counts _ _ _).2 (by decide) (by decide)⟩

/-- C2: merging the same staging content a second time inserts zero rows
and leaves the datamart (hence its row count) unchanged. -/
theorem merge_idempotent (datamart staging : List SongRow) :
    insertedRows (load_data_to_datamart datamart staging) staging = [] ∧
    load_data_to_datamart (load_data_to_datamart datamart staging) staging =
      load_data_to_datamart datamart staging := by
  have hfilter :
      staging.filter
        (fun r => decide (r ∉ load_data_to_datamart datamart staging)) = [] := by
    rw [List.filter_eq_nil_iff]
    intro r hr
    simp only [decide_eq_true_eq, not_not]
    by_cases hdm : r ∈ datamart
    · exact List.mem_append.mpr (Or.inl hdm)
    · refine List.mem_append.mpr (Or.inr ?_)
      unfold insertedRows
      exact mem_selectDistinct.mpr (List.mem_filter.mpr ⟨hr, by simpa using hdm⟩)
  have hins : insertedRows (load_data_to_datamart datamart staging) staging = [] := by
    unfold insertedRows
    rw [hfilter]
    rfl
  exact ⟨hins, by rw [load_data_to_datamart, hins, List.append_nil]⟩

/-- C3: if the datamart has no duplicate `(Song, Artist, DatePlayed,
TimePlayed)` tuple before the merge, it has none after, even when staging
itself contains duplicate rows. -/
theorem merge_preserves_nodup (datamart staging : List SongRow)
    (h : datamart.Nodup) : (load_data_to_datamart datamart staging).Nodup := by
  rw [load_data_to_datamart, List.nodup_append]
  refine ⟨h, nodup_selectDistinct _, ?_⟩
  intro t htdm htins
  have : t ∈ staging.filter (fun r => decide (r ∉ datamart)) :=
    mem_selectDistinct.mp htins
  exact (by simpa using (List.mem_filter.mp this).2 : t ∉ datamart) htdm

/-- C3 witness: a duplicate-free one-row datamart merged with a staging
relation that contains a duplicated row stays duplicate-free. -/
theorem merge_preserves_nodup_witness :
    ¬ ([⟨"SongY", "ArtistY", "2024-01-02", "01:00:00"⟩,
        ⟨"SongY", "ArtistY", "2024-01-02", "01:00:00"⟩] : List SongRow).Nodup ∧
    (load_data_to_datamart
        [⟨"SongX", "ArtistX", "2024-01-01", "00:00:00"⟩]
        [⟨"SongY", "ArtistY", "2024-01-02", "01:00:00"⟩,
         ⟨"SongY", "ArtistY", "2024-01-02", "01:00:00"⟩]).Nodup :=
  ⟨by decide, merge_preserves_nodup _ _ (by decide)⟩

/-! ## RecordBuilder: `create_dataframe`

`create_dataframe(times, songs, artists)` builds
`pd.DataFrame(zip(songs, artists, times))` — Python's `zip` silently
truncates to the shortest input — then applies `pd.to_datetime` to the
whole `TimePlayed` column (raising on any unparseable value) and only then
filters out rows whose `Song` is the sentinel `'UPICKSTART'`.  The
timestamp parser itself is the external `pandas` collaborator, so the
embedding takes it as a parameter `parse : String → Option DT`. -/

/-- One validated play record: a row of the dataframe after timestamp
parsing, with `TimePlayed` of the parser's target type `DT`. -/
structure PlayRow (DT : Type) where
  Song : String
  Artist : String
  TimePlayed : DT
deriving DecidableEq, Repr

/-- Python's three-list `zip`: pairs positionally and truncates to the
shortest input. -/
def zip3 {α β γ : Type} : List α → List β → List γ → List (α × β × γ)
  | x :: xs, y :: ys, z :: zs => (x, y, z) :: zip3 xs ys zs
  | _, _, _ => []

/-- `pd.to_datetime` applied to the `TimePlayed` column: parse every row's
time string, failing the whole batch on the first unparseable value. -/
def parseTimes {DT : Type} (parse : String → Option DT) :
    List (String × String × String) → Except PipelineError (List (PlayRow DT))
  | [] => .ok []
  | (s, a, t) :: rest =>
    match parse t with
    | none => .error .ValidationError
    | some dt =>
      match parseTimes parse rest with
      | .error e => .error e
      | .ok rs => .ok (⟨s, a, dt⟩ :: rs)

/-- `create_dataframe`: zip the three scraped lists into rows, parse the
whole time column, then drop sentinel-titled rows. -/
def create_dataframe {DT : Type} (parse : String → Option DT)
    (times songs artists : List String) :
    Except PipelineError (List (PlayRow DT)) :=
  match parseTimes parse (zip3 songs artists times) with
  | .error e => .error e
  | .ok rows => .ok (rows.filter (fun r => !(r.Song == "UPICKSTART")))

theorem zip3_map_fst {α β γ : Type} :
    ∀ (xs : List α) (ys : List β) (zs : List γ),
      xs.length = ys.length → ys.length = zs.length →
      (zip3 xs ys zs).map (fun p => p.1) = xs := by
  intro xs
  induction xs with
  | nil =>
    intro ys zs _ _
    cases ys <;> cases zs <;> simp [zip3]
  | cons x xs ih =>
    intro ys zs h1 h2
    cases ys with
    | nil => simp at h1
    | cons y ys =>
      cases zs with
      | nil => simp at h2
      | cons z zs =>
        simp only [zip3, List.map_cons, List.cons.injEq, true_and]
        exact ih ys zs (by simpa using h1) (by simpa using h2)

theorem zip3_mem_third {α β γ : Type} :
    ∀ {xs : List α} {ys : List β} {zs : List γ} {p : α × β × γ},
      p ∈ zip3 xs ys zs → p.2.2 ∈ zs := by
  intro xs
  induction xs with
  | nil =>
    intro ys zs p hp
    simp [zip3] at hp
  | cons x xs ih =>
    intro ys zs p hp
    cases ys with
    | nil => simp [zip3] at hp
    | cons y ys =>
      cases zs with
      | nil => simp [zip3] at hp
      | cons z zs =>
        simp only [zip3, List.mem_cons] at hp
        rcases hp with rfl | hp
        · exact List.mem_cons_self _ _
        · exact List.mem_cons_of_mem _ (ih hp)

theorem parseTimes_ok_of_parses {DT : Type} (parse : String → Option DT) :
    ∀ l : List (String × String × String),
      (∀ p ∈ l, (parse p.2.2).isSome) →
      ∃ rs, parseTimes parse l = .ok rs ∧
        rs.map (fun r => r.Song) = l.map (fun p => p.1) := by
  intro l
  induction l with
  | nil => exact fun _ => ⟨[], rfl, rfl⟩
  | cons p rest ih =>
    intro hall
    obtain ⟨s, a, t⟩ := p
    obtain ⟨dt, hdt⟩ := Option.isSome_iff_exists.mp (hall _ (List.mem_cons_self _ _))
    obtain ⟨rs, hrs, hmap⟩ := ih (fun q hq => hall q (List.mem_cons_of_mem _ hq))
    refine ⟨⟨s, a, dt⟩ :: rs, ?_, ?_⟩
    · simp only [parseTimes, hdt, hrs]
    · simpa using hmap

theorem filter_sentinel_length {DT : Type} :
    ∀ rs : List (PlayRow DT),
      (rs.filter (fun r => !(r.Song == "UPICKSTART"))).length =
        rs.length - ((rs.map (fun r => r.Song)).count "UPICKSTART") := by
  intro rs
  induction rs with
  | nil => rfl
  | cons r rest ih =>
    by_cases hs : r.Song = "UPICKSTART"
    · have hcount : ((r :: rest).map (fun r => r.Song)).count "UPICKSTART" =
          ((rest.map (fun r => r.Song)).count "UPICKSTART") + 1 := by
        simp [hs]
      have hle : ((rest.map (fun r => r.Song)).count "UPICKSTART") ≤ rest.length := by
        simpa using List.count_le_length "UPICKSTART" (rest.map (fun r => r.Song))
      rw [List.filter_cons_of_neg (by simp [hs]), ih, hcount]
      simp only [List.length_cons]
      omega
    · have hcount : ((r :: rest).map (fun r => r.Song)).count "UPICKSTART" =
          ((rest.map (fun r => r.Song)).count "UPICKSTART") := by
        simp [List.count_cons, hs]
      have hle : ((rest.map (fun r => r.Song)).count "UPICKSTART") ≤ rest.length := by
        simpa using List.count_le_length "UPICKSTART" (rest.map (fun r => r.Song))
      rw [List.filter_cons_of_pos (by simp [hs])]
      simp only [List.length_cons]
      rw [ih, hcount]
      omega

/-- C4: when the three scraped lists have equal length and every time
string parses, the batch has length equal to the title list's length minus
the number of sentinel (`'UPICKSTART'`) titles. -/
theorem create_dataframe_batch_length {DT : Type} (parse : String → Option DT)
    (times songs artists : List String)
    (hlen1 : songs.length = artists.length)
    (hlen2 : artists.length = times.length)
    (hparse : ∀ t ∈ times, (parse t).isSome) :
    ∃ df, create_dataframe parse times songs artists = .ok df ∧
      df.length = songs.length - songs.count "UPICKSTART" := by
  obtain ⟨rs, hrs, hmap⟩ :=
    parseTimes_ok_of_parses parse (zip3 songs artists times)
      (fun p hp => hparse p.2.2 (zip3_mem_third hp))
  refine ⟨rs.filter (fun r => !(r.Song == "UPICKSTART")), ?_, ?_⟩
  · simp only [create_dataframe, hrs]
  · have hfst := zip3_map_fst songs artists times hlen1 hlen2
    have hsongs : rs.map (fun r => r.Song) = songs := by rw [hmap, hfst]
    have hlen : rs.length = songs.length := by
      have := congrArg List.length hsongs
      simpa using this
    rw [filter_sentinel_length rs, hsongs, hlen]

/-- C4 witness: the spec's example — titles `["UPICKSTART", "Song A"]`,
artists `["", "Artist A"]`, two parseable times — yields a batch of length
`2 - 1 = 1`. -/
theorem create_dataframe_batch_length_witness :
    ∃ df, create_dataframe (fun s => if s = "" then none else some s)
        ["2024-01-01T00:00:00Z", "2024-01-01T00:05:00Z"]
        ["UPICKSTART", "Song A"] ["", "Artist A"] = .ok df ∧
      df.length =
        (["UPICKSTART", "Song A"] : List String).length -
          (["UPICKSTART", "Song A"] : List String).count "UPICKSTART" :=
  create_dataframe_batch_length _ _ _ _ (by decide) (by decide) (by decide)

/-- C5: the code has no sequence-length check — on misaligned inputs
(two times, one title, one artist) `create_dataframe` silently truncates
to the shortest list and returns a one-row batch instead of failing with
`ParseError` before zipping. -/
theorem misaligned_sequences_truncate :
    create_dataframe (fun s => if s = "" then none else some s)
        ["2024-01-01T00:00:00Z", "2024-01-01T00:05:00Z"]
        ["Song A"] ["Artist A"] =
      .ok [⟨"Song A", "Artist A", "2024-01-01T00:00:00Z"⟩] := by
  rfl

theorem parseTimes_error_of_bad {DT : Type} (parse : String → Option DT) :
    ∀ l : List (String × String × String),
      (∃ p ∈ l, parse p.2.2 = none) →
      parseTimes parse l = .error .ValidationError := by
  intro l
  induction l with
  | nil => rintro ⟨p, hp, -⟩; simp at hp
  | cons q rest ih =>
    rintro ⟨p, hp, hbad⟩
    obtain ⟨s, a, t⟩ := q
    rcases List.mem_cons.mp hp with rfl | hmem
    · simp only [parseTimes, hbad]
    · cases hqt : parse t with
      | none => simp only [parseTimes, hqt]
      | some dt => simp only [parseTimes, hqt, ih ⟨p, hmem, hbad⟩]

/-- C9: timestamp parsing runs over every zipped row before sentinel
filtering, so a sentinel-titled row with an unparseable time string fails
the whole batch with `ValidationError` instead of being dropped first. -/
theorem sentinel_rows_still_parsed {DT : Type} (parse : String → Option DT)
    (times songs artists : List String) (a t : String)
    (hmem : ("UPICKSTART", a, t) ∈ zip3 songs artists times)
    (hbad : parse t = none) :
    create_dataframe parse times songs artists = .error .ValidationError := by
  have herr := parseTimes_error_of_bad parse (zip3 songs artists times)
    ⟨("UPICKSTART", a, t), hmem, hbad⟩
  simp only [create_dataframe, herr]

/-- C9 witness: a sentinel row whose time string is unparseable (the empty
string) makes the whole batch fail even though the other row is valid. -/
theorem sentinel_rows_still_parsed_witness :
    ("UPICKSTART", "", "") ∈
      zip3 ["UPICKSTART", "Song A"] ["", "Artist A"]
        ["", "2024-01-01T00:05:00Z"] ∧
    (fun (s : String) => if s = "" then none else some s) "" = none ∧
    create_dataframe (fun (s : String) => if s = "" then none else some s)
        ["", "2024-01-01T00:05:00Z"] ["UPICKSTART", "Song A"] ["", "Artist A"] =
      .error .ValidationError :=
  ⟨by decide, by decide,
   sentinel_rows_still_parsed _ _ _ _ "" "" (by decide) (by decide)⟩

/-! ## Fetcher: `get_data`

`get_data` calls `requests.get(url)` — a raised network exception
propagates out of the function, but `requests.get` does not raise on a
non-success HTTP status — and then runs three `BeautifulSoup.find_all`
extractions over `r.text`.  The response body's markup extraction is the
external collaborator, taken as a parameter; `r.status_code` is never
read.  A failed request is modelled as `none`, a completed response
(whatever its status) as `some`. -/

/-- An HTTP response as `get_data` sees it: a status code and a body. -/
structure HttpResponse where
  status : Nat
  body : String
deriving DecidableEq, Repr

/-- `get_data`: propagate a network failure, otherwise extract the three
lists (times, songs, artists) from the response body.  The status code is
not inspected anywhere in the function. -/
def get_data (extract : String → List String × List String × List String)
    (resp : Option HttpResponse) :
    Except PipelineError (List String × List String × List String) :=
  match resp with
  | none => .error .FetchError
  | some r => .ok (extract r.body)

/-- Written from the spec's words, not the source (the source never
inspects the status): an HTTP status is a success exactly when it lies in
the 2xx range. -/
def isSuccessStatus (n : Nat) : Bool := 200 ≤ n && n < 300

/-- An extraction that finds no matching tags, as on an error page. -/
def emptyExtract : String → List String × List String × List String :=
  fun _ => ([], [], [])

/-- C6 counterexample: a completed response with non-success status 404
yields a normal (non-error) triple of sequences, so the Fetcher does not
fail on non-success HTTP status. -/
theorem non_success_status_yields_triple :
    isSuccessStatus 404 = false ∧
    get_data emptyExtract (some ⟨404, "<html>Not Found</html>"⟩) =
      .ok ([], [], []) :=
  ⟨rfl, rfl⟩

/-- C6 amended: the Fetcher fails (with the propagated network error) on a
failed request, and on any completed response — whatever its HTTP
status — it returns the triple extracted from the body. -/
theorem get_data_fails_iff_network_fails
    (extract : String → List String × List String × List String) :
    get_data extract none = .error .FetchError ∧
    ∀ r : HttpResponse, get_data extract (some r) = .ok (extract r.body) :=
  ⟨rfl, fun _ => rfl⟩

/-! ## Writer, Archiver and `main`: the cloud-store state

The landing bucket and the archive store are maps from object name to
content, rendered as association lists.  `create_file_in_gcs_bucket`
computes `file_name = f'{FILE_BASE_NAME}_{file_timestamp}.csv'` and calls
`blob.upload_from_filename` with no generation precondition, which creates
the object or replaces an existing one of the same name.
`move_files_to_archive` has the body `pass`, and `main` never calls it. -/

/-- The durable stores a run touches: the landing bucket and the archive,
each a name-to-content map. -/
structure CloudState where
  landing : List (String × String)
  archive : List (String × String)
deriving DecidableEq, Repr

/-- Read an object from a store. -/
def lookupObj (store : List (String × String)) (name : String) :
    Option String :=
  (store.find? (fun p => p.1 == name)).map (fun p => p.2)

/-- `blob.upload_from_filename` with no precondition: create the object,
replacing any existing object of the same name. -/
def upload_blob (store : List (String × String)) (name content : String) :
    List (String × String) :=
  store.filter (fun p => !(p.1 == name)) ++ [(name, content)]

/-- The landing-object name: `f'{FILE_BASE_NAME}_{file_timestamp}.csv'`
with the timestamp taken at second resolution. -/
def file_name (t : Nat) : String :=
  FILE_BASE_NAME ++ "_" ++ toString t ++ ".csv"

/-- `create_file_in_gcs_bucket`, store effect: upload the serialized batch
to the landing bucket under the time-derived name. -/
def create_file_in_gcs_bucket (c : CloudState) (t : Nat) (content : String) :
    CloudState :=
  { c with landing := upload_blob c.landing (file_name t) content }

/-- `create_external_table`, store effect: redefines a BigQuery external
table, touching neither store. -/
def create_external_table_store (c : CloudState) : CloudState := c

/-- `load_data_to_staging`, store effect: truncates and reloads a BigQuery
table, touching neither store. -/
def load_data_to_staging_store (c : CloudState) : CloudState := c

/-- `load_data_to_datamart`, store effect: inserts into a BigQuery table,
touching neither store. -/
def load_data_to_datamart_store (c : CloudState) : CloudState := c

/-- `move_files_to_archive`: the body is `pass`, so the stores are
unchanged. -/
def move_files_to_archive (c : CloudState) : CloudState := c

/-- `clean_up_directory`, store effect: removes local files only, touching
neither store. -/
def clean_up_directory_store (c : CloudState) : CloudState := c

/-- `main`, store effect: upload the batch, run the three queries, clean
the local directory.  No call to `move_files_to_archive` appears. -/
def main_store (c : CloudState) (t : Nat) (content : String) : CloudState :=
  clean_up_directory_store
    (load_data_to_datamart_store
      (load_data_to_staging_store
        (create_external_table_store
          (create_file_in_gcs_bucket c t content))))

/-- C7: after a successful run, a landing object present at run start is
still in the landing store under its old content and the archive store is
still empty — nothing is archived, because `move_files_to_archive` is a
no-op (`pass`) and `main` never invokes it. -/
theorem run_leaves_landing_unarchived :
    lookupObj (main_store ⟨[("songlist_100.csv", "old batch")], []⟩
        200 "new batch").landing "songlist_100.csv" = some "old batch" ∧
    (main_store ⟨[("songlist_100.csv", "old batch")], []⟩
        200 "new batch").archive = [] ∧
    move_files_to_archive ⟨[("songlist_100.csv", "old batch")], []⟩ =
      ⟨[("songlist_100.csv", "old batch")], []⟩ := by
  refine ⟨?_, rfl, rfl⟩
  rfl

/-- C8 counterexample: when the batch id collides with an existing landing
object (timestamp 100 twice), the write succeeds and replaces the old
content with the new one instead of failing. -/
theorem writer_overwrites_on_collision :
    lookupObj [(file_name 100, "old batch")] (file_name 100) =
      some "old batch" ∧
    lookupObj (create_file_in_gcs_bucket
        ⟨[(file_name 100, "old batch")], []⟩ 100 "new batch").landing
      (file_name 100) = some "new batch" ∧
    ("new batch" : String) ≠ "old batch" := by
  refine ⟨rfl, rfl, ?_⟩
  decide

theorem find?_filtered_append (name content : String) :
    ∀ l : List (String × String),
      ((l.filter (fun q => !(q.1 == name)) ++ [(name, content)]).find?
        (fun q => q.1 == name)) = some (name, content) := by
  intro l
  induction l with
  | nil => simp [List.find?]
  | cons p rest ih =>
    by_cases hp : p.1 = name
    · rw [List.filter_cons_of_neg (by simp [hp])]
      exact ih
    · rw [List.filter_cons_of_pos (by simp [hp]), List.cons_append,
        List.find?_cons_of_neg _ (by simp [hp])]
      exact ih

theorem lookupObj_upload_blob (store : List (String × String))
    (name content : String) :
    lookupObj (upload_blob store name content) name = some content := by
  simp only [lookupObj, upload_blob]
  rw [find?_filtered_append name content store]
  rfl

/-- C8 amended: the Writer uploads unconditionally — after the write the
landing object under the time-derived name holds the new batch content,
overwriting any existing object of that name rather than failing. -/
theorem writer_upserts (c : CloudState) (t : Nat) (content : String) :
    lookupObj (create_file_in_gcs_bucket c t content).landing (file_name t) =
      some content :=
  lookupObj_upload_blob c.landing (file_name t) content

/-! ## `clean_up_directory`

`for i in os.listdir(): if '.csv' in i: os.remove(i)` — every file of the
current working directory whose name contains `'.csv'` as a substring is
removed; every other file is kept.  The directory is a list of file
names. -/

/-- Python's `'.csv' in i`: `.csv` occurs as a substring of the name
exactly when splitting on it yields more than one piece. -/
def hasCsv (name : String) : Bool := 1 < (name.splitOn ".csv").length

/-- `clean_up_directory`: the directory after the removal loop. -/
def clean_up_directory : List String → List String
  | [] => []
  | f :: rest =>
    if hasCsv f then clean_up_directory rest
    else f :: clean_up_directory rest

/-- C10: a file survives `clean_up_directory` exactly when it was in the
directory and its name does not contain `'.csv'` — so every CSV-named
file, including pre-existing ones, is removed, and no other file is
touched. -/
theorem clean_up_removes_exactly_csv (files : List String) (f : String) :
    f ∈ clean_up_directory files ↔ (f ∈ files ∧ hasCsv f = false) := by
  induction files with
  | nil => simp [clean_up_directory]
  | cons g rest ih =>
    by_cases hg : hasCsv g
    · rw [clean_up_directory, if_pos hg, ih]
      constructor
      · rintro ⟨hf, hcsv⟩
        exact ⟨List.mem_cons_of_mem _ hf, hcsv⟩
      · rintro ⟨hf, hcsv⟩
        rcases List.mem_cons.mp hf with rfl | hf
        · rw [hg] at hcsv
          cases hcsv
        · exact ⟨hf, hcsv⟩
    · rw [clean_up_directory, if_neg hg]
      constructor
      · intro hf
        rcases List.mem_cons.mp hf with rfl | hf
        · exact ⟨List.mem_cons_self _ _, Bool.of_not_eq_true hg⟩
        · obtain ⟨hmem, hcsv⟩ := ih.mp hf
          exact ⟨List.mem_cons_of_mem _ hmem, hcsv⟩
      · rintro ⟨hf, hcsv⟩
        rcases List.mem_cons.mp hf with rfl | hf
        · exact List.mem_cons_self _ _
        · exact List.mem_cons_of_mem _ (ih.mpr ⟨hf, hcsv⟩)

end Songs
